import Mathlib

/-!
# Speedcox stroke-detection core: a shallow embedding

This file embeds the stroke-detection core of the Speedcox repository in
Lean 4 and proves properties of it.

Numbers: JavaScript numbers are IEEE-754 doubles.  The primary embedding
uses `ℚ` for magnitudes, speeds and rates and `ℤ` for millisecond
timestamps, which is faithful for the finite inputs the corresponding
claims quantify over (the arithmetic used is `+ - * /` on exact decimal
constants, comparisons, `Math.round` and `Math.min`).  A second embedding
(`namespace JSModel`) refines numbers to `JSNum`, which models the IEEE
special values `NaN` and `±Infinity`; it is used for the claims whose
truth depends on those values (division by a zero time span, NaN samples).

Source files referenced below:
  - `src/js/utils/calculations.js` (pure helpers)
  - `src/js/utils/config.js` (constants)
  - `src/js/services/strokeDetection.js` (detection service)
  - `src/js/models/sensors.js` (`SensorModel`)
  - `src/js/models/sensors-new.js` (`SensorsModel` class)
  - `src/unnamed/part_000` (`WorkoutModel` class and object literal)
-/

/- ===========================================================================
 * Configuration constants, from src/js/utils/config.js
 * =========================================================================== -/

/-- `MOTION_CONFIG.ACCELERATION_THRESHOLD` (config.js): amount above baseline
to detect a stroke. -/
def ACCELERATION_THRESHOLD : ℚ := 4

/-- `MOTION_CONFIG.MIN_STROKE_INTERVAL` (config.js): minimum time between
strokes, in ms. -/
def MIN_STROKE_INTERVAL : ℤ := 800

/-- `MOTION_CONFIG.BASELINE_SAMPLE_SIZE` (config.js): number of samples used
for the baseline. -/
def BASELINE_SAMPLE_SIZE : ℕ := 20

/-- `MOTION_CONFIG.STROKE_RATE_WINDOW` (config.js): rate window, in ms. -/
def STROKE_RATE_WINDOW : ℤ := 10000

/-- `MOTION_CONFIG.MAX_STROKE_RATE` (config.js): rate cap, in SPM. -/
def MAX_STROKE_RATE : ℤ := 40

/-- `GPS_STROKE_CONFIG.MIN_SAMPLES_FOR_DETECTION` (config.js). -/
def MIN_SAMPLES_FOR_DETECTION : ℕ := 5

/-- `GPS_STROKE_CONFIG.PEAK_THRESHOLD_MULTIPLIER` (config.js). -/
def PEAK_THRESHOLD_MULTIPLIER : ℚ := 11 / 10

/-- `GPS_STROKE_CONFIG.MIN_TIME_BETWEEN_PEAKS` (config.js), in ms. -/
def MIN_TIME_BETWEEN_PEAKS : ℤ := 1000

/-- `GPS_STROKE_CONFIG.MIN_PEAKS_FOR_RATE` (config.js). -/
def MIN_PEAKS_FOR_RATE : ℕ := 2

/-- `GPS_STROKE_CONFIG.MAX_GPS_STROKE_RATE` (config.js), in SPM. -/
def MAX_GPS_STROKE_RATE : ℤ := 40

/- ===========================================================================
 * Basic data model
 * =========================================================================== -/

/-- One accelerometer sample `{magnitude, timestamp}` as stored in
`accelerationHistory` (sensors.js, sensors-new.js). -/
structure AccelSample where
  magnitude : ℚ
  timestamp : ℤ
deriving DecidableEq

/-- One speed sample / speed peak `{speed, timestamp}` as stored in
`speedHistory` and `speedPeaks`. -/
structure SpeedSample where
  speed : ℚ
  timestamp : ℤ
deriving DecidableEq

instance : Inhabited SpeedSample := ⟨⟨0, 0⟩⟩

/-- One stroke-rate record `{rate, timestamp}` as stored in `strokeTimes`. -/
structure RateRecord where
  rate : ℤ
  timestamp : ℤ
deriving DecidableEq

/-- `array.slice(-n)`: the last `n` elements of a list (the whole list when it
is shorter than `n`). -/
def lastN (n : ℕ) (l : List α) : List α := l.drop (l.length - n)

/-- JavaScript `Math.round` on an exact rational: round to the nearest
integer, halves toward positive infinity. -/
def jround (q : ℚ) : ℤ := ⌊q + 1 / 2⌋

/- ===========================================================================
 * Pure helpers, from src/js/utils/calculations.js
 * =========================================================================== -/

/-- `calculateAverage(values)` (calculations.js): arithmetic mean, `0` for an
empty array. -/
def calculateAverage (values : List ℚ) : ℚ :=
  if values.length = 0 then 0 else values.sum / values.length

/-- `isRealMovement(distance, speed, minDistance, minSpeed)`
(calculations.js): the GPS noise filter,
`distance > minDistance && speed >= minSpeed`. -/
def isRealMovement (distance speed minDistance minSpeed : ℚ) : Bool :=
  decide (minDistance < distance) && decide (minSpeed ≤ speed)

/-- `calculateStrokeRate(strokeCount, timeSpanSeconds, maxRate)`
(calculations.js): `0` for a non-positive time span, otherwise
`Math.min(Math.round(strokeCount / timeSpanSeconds * 60), maxRate)`. -/
def calculateStrokeRate (strokeCount : ℕ) (timeSpanSeconds : ℚ) (maxRate : ℤ) : ℤ :=
  if timeSpanSeconds ≤ 0 then 0
  else min (jround ((strokeCount : ℚ) / timeSpanSeconds * 60)) maxRate

/-- `isSpeedPeak(currentSpeed, avgSpeed, threshold)` (calculations.js):
`currentSpeed > avgSpeed * threshold`. -/
def isSpeedPeak (currentSpeed avgSpeed threshold : ℚ) : Bool :=
  decide (avgSpeed * threshold < currentSpeed)

/- ===========================================================================
 * Motion stroke detection service, from src/js/services/strokeDetection.js
 * =========================================================================== -/

/-- The record returned by `MotionStrokeDetection.detectStroke` on a
detection (strokeDetection.js, the `detected: true` object). -/
structure StrokeResult where
  strokeRate : ℤ
  timestamp : ℤ
  recentStrokeCount : ℕ
  avgMagnitude : ℚ
  threshold : ℚ
deriving DecidableEq

namespace MotionStrokeDetection

/-- `MotionStrokeDetection.detectStroke(accelerationHistory, currentMagnitude,
timestamp, lastStrokeTime)` (strokeDetection.js lines 73-119): `null` while
fewer than `BASELINE_SAMPLE_SIZE` samples are stored; otherwise fires iff the
magnitude strictly exceeds `baseline + ACCELERATION_THRESHOLD` and the
debounce interval has strictly elapsed, computing the rate from the samples
of the last `STROKE_RATE_WINDOW` ms above the looser secondary threshold. -/
def detectStroke (accelerationHistory : List AccelSample) (currentMagnitude : ℚ)
    (timestamp lastStrokeTime : ℤ) : Option StrokeResult :=
  if accelerationHistory.length < BASELINE_SAMPLE_SIZE then none
  else
    let recentData := lastN BASELINE_SAMPLE_SIZE accelerationHistory
    let avgMagnitude := calculateAverage (recentData.map (·.magnitude))
    let threshold := avgMagnitude + ACCELERATION_THRESHOLD
    if threshold < currentMagnitude ∧ MIN_STROKE_INTERVAL < timestamp - lastStrokeTime then
      let recentStrokes := (accelerationHistory.filter (fun a =>
        decide (timestamp - STROKE_RATE_WINDOW < a.timestamp) &&
        decide (avgMagnitude + (ACCELERATION_THRESHOLD - 1) < a.magnitude))).length
      let timeSpanSeconds : ℚ := (STROKE_RATE_WINDOW : ℚ) / 1000
      let strokeRate := calculateStrokeRate recentStrokes timeSpanSeconds MAX_STROKE_RATE
      some ⟨strokeRate, timestamp, recentStrokes, avgMagnitude, threshold⟩
    else none

/-- `MotionStrokeDetection.hasEnoughData` (strokeDetection.js). -/
def hasEnoughData (accelerationHistory : List AccelSample) : Bool :=
  decide (BASELINE_SAMPLE_SIZE ≤ accelerationHistory.length)

end MotionStrokeDetection

/- ===========================================================================
 * GPS stroke detection service, from src/js/services/strokeDetection.js
 * =========================================================================== -/

/-- The record returned by `GPSStrokeDetection.detectSpeedPeak` on a peak. -/
structure PeakResult where
  speed : ℚ
  timestamp : ℤ
  avgSpeed : ℚ
deriving DecidableEq

namespace GPSStrokeDetection

/-- `GPSStrokeDetection.detectSpeedPeak(speedHistory, currentSpeed, timestamp,
lastPeakTime)` (strokeDetection.js lines 185-215). -/
def detectSpeedPeak (speedHistory : List SpeedSample) (currentSpeed : ℚ)
    (timestamp lastPeakTime : ℤ) : Option PeakResult :=
  if speedHistory.length < MIN_SAMPLES_FOR_DETECTION then none
  else
    let recentSpeeds := lastN 10 speedHistory
    let avgSpeed := calculateAverage (recentSpeeds.map (·.speed))
    let isPeak := isSpeedPeak currentSpeed avgSpeed PEAK_THRESHOLD_MULTIPLIER
    let isNewPeak := MIN_TIME_BETWEEN_PEAKS < timestamp - lastPeakTime
    if isPeak = true ∧ isNewPeak then some ⟨currentSpeed, timestamp, avgSpeed⟩
    else none

/-- `GPSStrokeDetection.calculateStrokeRateFromPeaks(speedPeaks)`
(strokeDetection.js lines 223-241): `0` with fewer than `MIN_PEAKS_FOR_RATE`
peaks, otherwise the capped rate over the peaks' time span, via the guarded
`calculateStrokeRate` helper. -/
def calculateStrokeRateFromPeaks (speedPeaks : List SpeedSample) : ℤ :=
  if speedPeaks.length < MIN_PEAKS_FOR_RATE then 0
  else
    let oldestPeak := (speedPeaks.headD default).timestamp
    let newestPeak := (speedPeaks.getLastD default).timestamp
    let timeSpanSeconds : ℚ := ((newestPeak - oldestPeak : ℤ) : ℚ) / 1000
    let strokeCount := speedPeaks.length - 1
    calculateStrokeRate strokeCount timeSpanSeconds MAX_GPS_STROKE_RATE

end GPSStrokeDetection

/-- The value returned by the method-selection layer: a plain number, or the
`{motion, gps}` object returned for method `'both'`. -/
inductive RateValue where
  | num (r : ℚ)
  | both (motion : ℚ) (gps : ℚ)
deriving DecidableEq

namespace StrokeDetectionService

/-- `StrokeDetectionService.getCurrentRate(method, motionRate, gpsRate)`
(strokeDetection.js lines 282-291): `'motion'` selects the motion rate,
`'gps'` the GPS rate, `'both'` the tagged pair `{motion, gps}`; anything else
returns `0`. -/
def getCurrentRate (method : String) (motionRate gpsRate : ℚ) : RateValue :=
  if method = "motion" then RateValue.num motionRate
  else if method = "gps" then RateValue.num gpsRate
  else if method = "both" then RateValue.both motionRate gpsRate
  else RateValue.num 0

end StrokeDetectionService

/- ===========================================================================
 * SensorModel, from src/js/models/sensors.js
 * =========================================================================== -/

/-- The mutable fields of the `SensorModel` object literal (sensors.js
lines 6-19). -/
structure SensorModelState where
  motionPermission : Bool
  accelerationHistory : List AccelSample
  lastStrokeDetection : ℤ
  currentStrokeRate : ℚ
  gpsStrokeRate : ℚ
  speedPeaks : List SpeedSample
  lastSpeedPeak : ℤ
  strokeRateMethod : String
deriving DecidableEq

namespace SensorModel

/-- The initial values of the `SensorModel` object literal (sensors.js). -/
def init : SensorModelState :=
  ⟨false, [], 0, 0, 0, [], 0, "gps"⟩

/-- `SensorModel.enableMotion()` (sensors.js). -/
def enableMotion (s : SensorModelState) : SensorModelState :=
  { s with motionPermission := true }

/-- `SensorModel.disableMotion()` (sensors.js). -/
def disableMotion (s : SensorModelState) : SensorModelState :=
  { s with motionPermission := false }

/-- `SensorModel.addAcceleration(magnitude, timestamp)` (sensors.js lines
50-56): push the sample, then keep only the samples of the last 10 s. -/
def addAcceleration (s : SensorModelState) (magnitude : ℚ) (timestamp : ℤ) :
    SensorModelState :=
  { s with accelerationHistory :=
      ((s.accelerationHistory ++ [(⟨magnitude, timestamp⟩ : AccelSample)]).filter
        (fun a => decide (timestamp - 10000 < a.timestamp))) }

/-- `SensorModel.recordStrokeDetection(timestamp)` (sensors.js). -/
def recordStrokeDetection (s : SensorModelState) (timestamp : ℤ) : SensorModelState :=
  { s with lastStrokeDetection := timestamp }

/-- `SensorModel.setMotionStrokeRate(rate)` (sensors.js). -/
def setMotionStrokeRate (s : SensorModelState) (rate : ℚ) : SensorModelState :=
  { s with currentStrokeRate := rate }

/-- `SensorModel.addSpeedPeak(speed, timestamp)` (sensors.js lines 115-122):
push the peak, record it as the last peak, then keep only the peaks of the
last 30 s. -/
def addSpeedPeak (s : SensorModelState) (speed : ℚ) (timestamp : ℤ) : SensorModelState :=
  { s with
      speedPeaks :=
        ((s.speedPeaks ++ [(⟨speed, timestamp⟩ : SpeedSample)]).filter
          (fun p => decide (timestamp - 30000 < p.timestamp))),
      lastSpeedPeak := timestamp }

/-- `SensorModel.setGPSStrokeRate(rate)` (sensors.js). -/
def setGPSStrokeRate (s : SensorModelState) (rate : ℚ) : SensorModelState :=
  { s with gpsStrokeRate := rate }

/-- `SensorModel.setStrokeRateMethod(method)` (sensors.js). -/
def setStrokeRateMethod (s : SensorModelState) (method : String) : SensorModelState :=
  { s with strokeRateMethod := method }

/-- `SensorModel.getCurrentStrokeRate()` (sensors.js lines 188-200): the rate
for the selected method; `{gps, motion}` for `'both'`; `0` for any other
method string. -/
def getCurrentStrokeRate (s : SensorModelState) : RateValue :=
  if s.strokeRateMethod = "gps" then RateValue.num s.gpsStrokeRate
  else if s.strokeRateMethod = "motion" then RateValue.num s.currentStrokeRate
  else if s.strokeRateMethod = "both" then
    RateValue.both s.currentStrokeRate s.gpsStrokeRate
  else RateValue.num 0

/-- `SensorModel.reset()` (sensors.js lines 205-213): clears the windows,
trigger timestamps and rates.  It does not touch `motionPermission` or
`strokeRateMethod`. -/
def reset (s : SensorModelState) : SensorModelState :=
  { s with
      accelerationHistory := [],
      lastStrokeDetection := 0,
      currentStrokeRate := 0,
      gpsStrokeRate := 0,
      speedPeaks := [],
      lastSpeedPeak := 0 }

end SensorModel

/-- One call into the public mutating API of `SensorModel` (sensors.js);
used to describe the reachable states of the model. -/
inductive SensorOp where
  | enableMotion
  | disableMotion
  | addAcceleration (magnitude : ℚ) (timestamp : ℤ)
  | recordStrokeDetection (timestamp : ℤ)
  | setMotionStrokeRate (rate : ℚ)
  | addSpeedPeak (speed : ℚ) (timestamp : ℤ)
  | setGPSStrokeRate (rate : ℚ)
  | setStrokeRateMethod (method : String)
  | reset

/-- Apply one `SensorOp` to a `SensorModelState`. -/
def SensorOp.apply (s : SensorModelState) : SensorOp → SensorModelState
  | .enableMotion => SensorModel.enableMotion s
  | .disableMotion => SensorModel.disableMotion s
  | .addAcceleration m t => SensorModel.addAcceleration s m t
  | .recordStrokeDetection t => SensorModel.recordStrokeDetection s t
  | .setMotionStrokeRate r => SensorModel.setMotionStrokeRate s r
  | .addSpeedPeak v t => SensorModel.addSpeedPeak s v t
  | .setGPSStrokeRate r => SensorModel.setGPSStrokeRate s r
  | .setStrokeRateMethod m => SensorModel.setStrokeRateMethod s m
  | .reset => SensorModel.reset s

/-- The state of `SensorModel` after a sequence of API calls starting from
its initial state. -/
def SensorModel.runOps (ops : List SensorOp) : SensorModelState :=
  ops.foldl SensorOp.apply SensorModel.init

/- ===========================================================================
 * SensorsModel class, from src/js/models/sensors-new.js
 * =========================================================================== -/

/-- The stroke-detection fields of the `SensorsModel` class
(sensors-new.js constructor).  The permission and listener flags only gate
whether the event handler runs at all and are omitted: the embedded
`handleDeviceMotion` models a delivered motion event. -/
structure SensorsModelState where
  strokeCount : ℕ
  lastStrokeDetection : ℤ
  currentStrokeRate : ℤ
  accelerationHistory : List AccelSample
  strokeTimes : List RateRecord
deriving DecidableEq

namespace SensorsModel

/-- The constructor's initial values (sensors-new.js). -/
def init : SensorsModelState := ⟨0, 0, 0, [], []⟩

/-- `SensorsModel.detectStroke(magnitude, timestamp)` (sensors-new.js lines
174-217): the in-class twin of the detection service.  With at least 20
stored samples it compares the magnitude against `baseline + 4` and the
timestamp against the 800 ms debounce; on a detection it bumps the stroke
count, updates the trigger timestamp, computes the capped windowed rate and
appends a rate record (keeping 2 minutes of them). -/
def detectStroke (s : SensorsModelState) (magnitude : ℚ) (timestamp : ℤ) :
    SensorsModelState :=
  if s.accelerationHistory.length < 20 then s
  else
    let recentData := lastN 20 s.accelerationHistory
    let avgMagnitude := (recentData.map (·.magnitude)).sum / (recentData.length : ℚ)
    let threshold := avgMagnitude + 4
    if threshold < magnitude ∧ 800 < timestamp - s.lastStrokeDetection then
      let recentStrokes := (s.accelerationHistory.filter (fun a =>
        decide (timestamp - 10000 < a.timestamp) &&
        decide (avgMagnitude + 3 < a.magnitude))).length
      let rate := min (jround ((recentStrokes : ℚ) / ((10000 : ℚ) / 1000) * 60)) 40
      { strokeCount := s.strokeCount + 1,
        lastStrokeDetection := timestamp,
        currentStrokeRate := rate,
        accelerationHistory := s.accelerationHistory,
        strokeTimes :=
          ((s.strokeTimes ++ [(⟨rate, timestamp⟩ : RateRecord)]).filter
            (fun r => decide (timestamp - 120000 < r.timestamp))) }
    else s

/-- `SensorsModel.handleDeviceMotion` (sensors-new.js lines 128-155), given
the already-computed magnitude: store the sample, evict samples older than
10 s, then attempt stroke detection. -/
def handleDeviceMotion (s : SensorsModelState) (magnitude : ℚ) (timestamp : ℤ) :
    SensorsModelState :=
  let s1 : SensorsModelState :=
    { s with accelerationHistory :=
        ((s.accelerationHistory ++ [(⟨magnitude, timestamp⟩ : AccelSample)]).filter
          (fun a => decide (timestamp - 10000 < a.timestamp))) }
  detectStroke s1 magnitude timestamp

/-- The `SensorsModel` state after a stream of motion events, each a
`(magnitude, timestamp)` pair delivered to `handleDeviceMotion`. -/
def run (events : List (ℚ × ℤ)) : SensorsModelState :=
  events.foldl (fun s e => handleDeviceMotion s e.1 e.2) init

end SensorsModel

/- ===========================================================================
 * WorkoutModel, from src/unnamed/part_000
 * =========================================================================== -/

/-- A GPS fix `{lat, lng, timestamp}` as stored in `lastPosition`. -/
structure GPSPosition where
  lat : ℚ
  lng : ℚ
  timestamp : ℤ
deriving DecidableEq

/-- The fields of the `WorkoutModel` class (part_000, first module,
constructor lines 10-34).  `watchId` abstracts the browser watch handle. -/
structure WorkoutModelState where
  isRunning : Bool
  startTime : Option ℤ
  totalDistance : ℚ
  strokeCount : ℕ
  lastPosition : Option GPSPosition
  watchId : Option ℤ
  speedHistory : List SpeedSample
  gpsStrokeRate : ℤ
  speedPeaks : List SpeedSample
  lastSpeedPeak : ℤ
  lastStrokeRateAnnounce : ℚ
  lastSplitAnnounce : ℚ
  lastLogMessage : String
deriving DecidableEq

namespace WorkoutModel

/-- The `WorkoutModel` class constructor's initial values (part_000). -/
def init : WorkoutModelState :=
  ⟨false, none, 0, 0, none, none, [], 0, [], 0, 0, 0, ""⟩

/-- `WorkoutModel.stop()` (part_000 lines 77-93): a no-op unless running;
otherwise clears the running flag, the log message and the GPS watch. -/
def stop (w : WorkoutModelState) : WorkoutModelState :=
  if w.isRunning = false then w
  else
    let w1 := { w with isRunning := false, lastLogMessage := "" }
    if w1.watchId.isSome then { w1 with watchId := none } else w1

/-- `WorkoutModel.reset()` (part_000 lines 99-110): stops the workout, then
clears distance, stroke count, speed history, position, start time and the
GPS stroke-rate state.  The announcement timers are not touched. -/
def reset (w : WorkoutModelState) : WorkoutModelState :=
  { stop w with
      totalDistance := 0,
      strokeCount := 0,
      speedHistory := [],
      lastPosition := none,
      startTime := none,
      gpsStrokeRate := 0,
      speedPeaks := [],
      lastSpeedPeak := 0 }

/-- `WorkoutModel.addSpeed(speed, timestamp)` (part_000, second module, lines
448-454): push the speed sample onto `speedHistory`, then keep only the
samples of the last 30 s. -/
def addSpeed (speedHistory : List SpeedSample) (speed : ℚ) (timestamp : ℤ) :
    List SpeedSample :=
  (speedHistory ++ [(⟨speed, timestamp⟩ : SpeedSample)]).filter
    (fun x => decide (timestamp - 30000 < x.timestamp))

end WorkoutModel

/- ===========================================================================
 * JSNum: JavaScript numbers with the IEEE special values
 * =========================================================================== -/

/-- A JavaScript number: a finite value (idealized as an exact rational),
one of the two infinities, or `NaN`.  The negative zero is identified with
zero, which is observationally sound for the operations modelled here. -/
inductive JSNum where
  | num (q : ℚ)
  | posInf
  | negInf
  | nan
deriving DecidableEq

namespace JSNum

/-- JavaScript `+` on numbers. -/
def jadd : JSNum → JSNum → JSNum
  | nan, _ => nan
  | _, nan => nan
  | posInf, negInf => nan
  | negInf, posInf => nan
  | posInf, _ => posInf
  | _, posInf => posInf
  | negInf, _ => negInf
  | _, negInf => negInf
  | num a, num b => num (a + b)

/-- JavaScript `*` on numbers. -/
def jmul : JSNum → JSNum → JSNum
  | nan, _ => nan
  | _, nan => nan
  | num a, num b => num (a * b)
  | posInf, num b => if b = 0 then nan else if 0 < b then posInf else negInf
  | num a, posInf => if a = 0 then nan else if 0 < a then posInf else negInf
  | negInf, num b => if b = 0 then nan else if 0 < b then negInf else posInf
  | num a, negInf => if a = 0 then nan else if 0 < a then negInf else posInf
  | posInf, posInf => posInf
  | posInf, negInf => negInf
  | negInf, posInf => negInf
  | negInf, negInf => posInf

/-- JavaScript `/` on numbers: a nonzero finite value divided by zero gives
a signed infinity, `0 / 0` gives `NaN`. -/
def jdiv : JSNum → JSNum → JSNum
  | nan, _ => nan
  | _, nan => nan
  | num a, num b =>
    if b = 0 then (if a = 0 then nan else if 0 < a then posInf else negInf)
    else num (a / b)
  | num _, posInf => num 0
  | num _, negInf => num 0
  | posInf, num b => if 0 ≤ b then posInf else negInf
  | negInf, num b => if 0 ≤ b then negInf else posInf
  | posInf, _ => nan
  | negInf, _ => nan

/-- JavaScript `<` on numbers: any comparison with `NaN` is false. -/
def jlt : JSNum → JSNum → Bool
  | nan, _ => false
  | _, nan => false
  | num a, num b => decide (a < b)
  | negInf, negInf => false
  | negInf, _ => true
  | _, negInf => false
  | posInf, _ => false
  | _, posInf => true

/-- JavaScript `>` on numbers. -/
def jgt (a b : JSNum) : Bool := jlt b a

/-- JavaScript `<=` on numbers: any comparison with `NaN` is false. -/
def jle : JSNum → JSNum → Bool
  | nan, _ => false
  | _, nan => false
  | num a, num b => decide (a ≤ b)
  | negInf, _ => true
  | _, negInf => false
  | _, posInf => true
  | posInf, _ => false

/-- JavaScript `Math.round`: `NaN` and the infinities are fixed points. -/
def jroundJ : JSNum → JSNum
  | num q => num ((⌊q + 1 / 2⌋ : ℤ) : ℚ)
  | posInf => posInf
  | negInf => negInf
  | nan => nan

/-- JavaScript `Math.min` of two numbers: `NaN` if either argument is
`NaN`. -/
def jmin : JSNum → JSNum → JSNum
  | nan, _ => nan
  | _, nan => nan
  | negInf, _ => negInf
  | _, negInf => negInf
  | posInf, b => b
  | a, posInf => a
  | num a, num b => num (min a b)

end JSNum

/- ===========================================================================
 * JSModel: the detection pipeline over JSNum
 *
 * The same source functions as above, re-read with JavaScript number
 * semantics, for the claims whose truth depends on NaN or Infinity.
 * =========================================================================== -/

namespace JSModel

open JSNum

/-- An accelerometer sample whose magnitude may be any JavaScript number
(e.g. `NaN` from a degenerate sensor event). -/
structure AccelSample where
  magnitude : JSNum
  timestamp : ℤ
deriving DecidableEq

/-- `calculateAverage(values)` (calculations.js) over JavaScript numbers:
`reduce((total, val) => total + val, 0)` divided by the length. -/
def calculateAverage (values : List JSNum) : JSNum :=
  if values.length = 0 then num 0
  else jdiv (values.foldl jadd (num 0)) (num values.length)

/-- `calculateStrokeRate(strokeCount, timeSpanSeconds, maxRate)`
(calculations.js) over JavaScript numbers. -/
def calculateStrokeRate (strokeCount : ℕ) (timeSpanSeconds maxRate : JSNum) : JSNum :=
  if jle timeSpanSeconds (num 0) then num 0
  else jmin (jroundJ (jmul (jdiv (num strokeCount) timeSpanSeconds) (num 60))) maxRate

/-- The detection result of `MotionStrokeDetection.detectStroke` over
JavaScript numbers (the fields used by the pipeline). -/
structure StrokeResult where
  strokeRate : JSNum
  timestamp : ℤ
  recentStrokeCount : ℕ
deriving DecidableEq

/-- `MotionStrokeDetection.detectStroke` (strokeDetection.js lines 73-119)
over JavaScript numbers. -/
def detectStroke (accelerationHistory : List AccelSample) (currentMagnitude : JSNum)
    (timestamp lastStrokeTime : ℤ) : Option StrokeResult :=
  if accelerationHistory.length < 20 then none
  else
    let recentData := lastN 20 accelerationHistory
    let avgMagnitude := calculateAverage (recentData.map (·.magnitude))
    let threshold := jadd avgMagnitude (num 4)
    let isSignificantMotion := jgt currentMagnitude threshold
    let isNewStroke := decide (800 < timestamp - lastStrokeTime)
    if isSignificantMotion && isNewStroke then
      let recentStrokes := (accelerationHistory.filter (fun a =>
        decide (timestamp - 10000 < a.timestamp) &&
        jgt a.magnitude (jadd avgMagnitude (num (4 - 1))))).length
      let strokeRate := calculateStrokeRate recentStrokes (jdiv (num 10000) (num 1000)) (num 40)
      some ⟨strokeRate, timestamp, recentStrokes⟩
    else none

/-- The motion-pipeline state kept in `SensorModel` (sensors.js): the
acceleration window, the last trigger timestamp and the current motion
rate. -/
structure MotionState where
  accelerationHistory : List AccelSample
  lastStrokeDetection : ℤ
  currentStrokeRate : JSNum
deriving DecidableEq

/-- The initial motion-pipeline state (sensors.js initial values). -/
def initMotion : MotionState := ⟨[], 0, num 0⟩

/-- `AppController.handleAccelerationData(magnitude, timestamp)`
(js/app.js lines 416-435): `SensorModel.addAcceleration`, then the motion
service's `detectStroke` on the stored history; on a detection,
`recordStrokeDetection` and `setMotionStrokeRate`. -/
def handleAccelerationData (s : MotionState) (magnitude : JSNum) (timestamp : ℤ) :
    MotionState :=
  let history :=
    (s.accelerationHistory ++ [(⟨magnitude, timestamp⟩ : AccelSample)]).filter
      (fun a => decide (timestamp - 10000 < a.timestamp))
  match detectStroke history magnitude timestamp s.lastStrokeDetection with
  | none => { s with accelerationHistory := history }
  | some r =>
      { accelerationHistory := history,
        lastStrokeDetection := r.timestamp,
        currentStrokeRate := r.strokeRate }

/-- The motion-pipeline state after a stream of acceleration events. -/
def runMotion (events : List (JSNum × ℤ)) : MotionState :=
  events.foldl (fun s e => handleAccelerationData s e.1 e.2) initMotion

/-- `SensorModel.calculateGPSStrokeRate()` (sensors.js lines 128-140) over
JavaScript numbers: `0` with fewer than 2 peaks; otherwise
`Math.min(Math.round(strokeCount / timeSpan * 60), 40)` with **no** guard on
a zero time span (unlike the service's `calculateStrokeRate`). -/
def calculateGPSStrokeRate (speedPeaks : List SpeedSample) : JSNum :=
  if speedPeaks.length < 2 then num 0
  else
    let oldestPeak := (speedPeaks.headD default).timestamp
    let newestPeak := (speedPeaks.getLastD default).timestamp
    let timeSpan : ℚ := ((newestPeak - oldestPeak : ℤ) : ℚ) / 1000
    let strokeCount := speedPeaks.length - 1
    let rate := jroundJ (jmul (jdiv (num strokeCount) (num timeSpan)) (num 60))
    jmin rate (num 40)

end JSModel

/-- The `SensorModel` state after a stream of acceleration observations
(each an `addAcceleration` call), starting from the initial state. -/
def SensorModel.runAccel (samples : List (ℚ × ℤ)) : SensorModelState :=
  samples.foldl (fun s p => SensorModel.addAcceleration s p.1 p.2) SensorModel.init

/-- Twenty acceleration observations of magnitude 1 at timestamps
0, 100, ..., 1900 ms. -/
def samples20 : List (ℚ × ℤ) :=
  [(1, 0), (1, 100), (1, 200), (1, 300), (1, 400), (1, 500), (1, 600), (1, 700),
   (1, 800), (1, 900), (1, 1000), (1, 1100), (1, 1200), (1, 1300), (1, 1400),
   (1, 1500), (1, 1600), (1, 1700), (1, 1800), (1, 1900)]

/-- Nineteen accelerometer samples of magnitude 1 at timestamps
0, 100, ..., 1800 ms, as JavaScript numbers. -/
def onesJ19 : List JSModel.AccelSample :=
  [⟨.num 1, 0⟩, ⟨.num 1, 100⟩, ⟨.num 1, 200⟩, ⟨.num 1, 300⟩, ⟨.num 1, 400⟩,
   ⟨.num 1, 500⟩, ⟨.num 1, 600⟩, ⟨.num 1, 700⟩, ⟨.num 1, 800⟩, ⟨.num 1, 900⟩,
   ⟨.num 1, 1000⟩, ⟨.num 1, 1100⟩, ⟨.num 1, 1200⟩, ⟨.num 1, 1300⟩, ⟨.num 1, 1400⟩,
   ⟨.num 1, 1500⟩, ⟨.num 1, 1600⟩, ⟨.num 1, 1700⟩, ⟨.num 1, 1800⟩]

/-- The window contents after a stream that contained one NaN magnitude at
1900 ms followed by a genuine spike of magnitude 100 at 2000 ms. -/
def historyWithNaN : List JSModel.AccelSample :=
  onesJ19 ++ [⟨.nan, 1900⟩, ⟨.num 100, 2000⟩]

/-- The same window contents with the NaN sample absent. -/
def historyWithoutNaN : List JSModel.AccelSample :=
  onesJ19 ++ [⟨.num 100, 2000⟩]

/- ===========================================================================
 * Claim C1: method selection
 * =========================================================================== -/

/-- C1, counterexample.  The claim states that selecting method `"both"` with
`motionRate = 24` and `gpsRate = 26` yields `{motion: 26, gps: 24}`.  It does
not: both `StrokeDetectionService.getCurrentRate` and
`SensorModel.getCurrentStrokeRate` put the motion rate in the `motion` field
and the GPS rate in the `gps` field, so the result is `{motion: 24, gps: 26}`. -/
theorem c1_both_mapping_counterexample :
    StrokeDetectionService.getCurrentRate "both" 24 26 ≠ RateValue.both 26 24 ∧
    SensorModel.getCurrentStrokeRate
      (SensorModel.runOps
        [SensorOp.setMotionStrokeRate 24, SensorOp.setGPSStrokeRate 26,
         SensorOp.setStrokeRateMethod "both"]) ≠ RateValue.both 26 24 := by
  constructor
  · simp [StrokeDetectionService.getCurrentRate]
  · simp [SensorModel.runOps, SensorOp.apply, SensorModel.init,
      SensorModel.setMotionStrokeRate, SensorModel.setGPSStrokeRate,
      SensorModel.setStrokeRateMethod, SensorModel.getCurrentStrokeRate]

/-- C1, amended.  Method `"both"` returns the tagged pair
`{motion: motionRate, gps: gpsRate}` — that is, `{motion: 24, gps: 26}` for
motion rate 24 and GPS rate 26 — and any method string other than
`"motion"`, `"gps"`, `"both"` yields `0`, in both the service selector and
the sensor model's selector. -/
theorem c1_method_selection :
    (StrokeDetectionService.getCurrentRate "both" 24 26 = RateValue.both 24 26) ∧
    (SensorModel.getCurrentStrokeRate
      (SensorModel.runOps
        [SensorOp.setMotionStrokeRate 24, SensorOp.setGPSStrokeRate 26,
         SensorOp.setStrokeRateMethod "both"]) = RateValue.both 24 26) ∧
    (∀ (method : String) (motionRate gpsRate : ℚ),
      method ≠ "motion" → method ≠ "gps" → method ≠ "both" →
      StrokeDetectionService.getCurrentRate method motionRate gpsRate = RateValue.num 0) ∧
    (∀ s : SensorModelState,
      s.strokeRateMethod ≠ "motion" → s.strokeRateMethod ≠ "gps" →
      s.strokeRateMethod ≠ "both" →
      SensorModel.getCurrentStrokeRate s = RateValue.num 0) := by
  refine ⟨?_, ?_, ?_, ?_⟩
  · simp [StrokeDetectionService.getCurrentRate]
  · simp [SensorModel.runOps, SensorOp.apply, SensorModel.init,
      SensorModel.setMotionStrokeRate, SensorModel.setGPSStrokeRate,
      SensorModel.setStrokeRateMethod, SensorModel.getCurrentStrokeRate]
  · intro method motionRate gpsRate h1 h2 h3
    simp [StrokeDetectionService.getCurrentRate, h1, h2, h3]
  · intro s h1 h2 h3
    simp [SensorModel.getCurrentStrokeRate, h1, h2, h3]

/-- C1, witness for the amended theorem: the unknown method `"unknown"`
yields `0` at concrete rates `24`, `26`. -/
theorem c1_method_selection_witness :
    StrokeDetectionService.getCurrentRate "unknown" 24 26 = RateValue.num 0 :=
  c1_method_selection.2.2.1 "unknown" 24 26 (by decide) (by decide) (by decide)

/- ===========================================================================
 * Claim C3: divide-by-zero safety of the GPS rate
 * =========================================================================== -/

/-- C3.  For two peaks with identical timestamps (time span 0), the service
path `GPSStrokeDetection.calculateStrokeRateFromPeaks` (guarded by
`calculateStrokeRate`) returns 0 as the claim states, but the model path
`SensorModel.calculateGPSStrokeRate` has no guard: it divides by zero,
`Math.round(Infinity)` stays `Infinity`, and `Math.min(Infinity, 40)`
returns 40 — not the claimed 0. -/
theorem c3_zero_timespan_gps_rate :
    GPSStrokeDetection.calculateStrokeRateFromPeaks
      [(⟨1, 1000⟩ : SpeedSample), ⟨2, 1000⟩] = 0 ∧
    JSModel.calculateGPSStrokeRate
      [(⟨1, 1000⟩ : SpeedSample), ⟨2, 1000⟩] = JSNum.num 40 := by
  constructor
  · norm_num [GPSStrokeDetection.calculateStrokeRateFromPeaks, calculateStrokeRate,
      MIN_PEAKS_FOR_RATE]
  · norm_num [JSModel.calculateGPSStrokeRate, JSNum.jdiv, JSNum.jmul, JSNum.jroundJ,
      JSNum.jmin]

/- ===========================================================================
 * Claim C4: reset round-trip
 * =========================================================================== -/

/-- C4, counterexample.  From the initial state, setting the stroke-rate
method to `"motion"` and then calling `reset()` twice leaves a state that is
not the freshly constructed one: `reset` preserves `strokeRateMethod`. -/
theorem c4_reset_counterexample :
    SensorModel.runOps
      [SensorOp.setStrokeRateMethod "motion", SensorOp.reset, SensorOp.reset]
      ≠ SensorModel.init := by
  intro h
  have hm := congrArg SensorModelState.strokeRateMethod h
  simp [SensorModel.runOps, SensorOp.apply, SensorModel.init,
    SensorModel.setStrokeRateMethod, SensorModel.reset] at hm

/-- C4, amended.  For every state, `reset()` is idempotent, and the state
after a reset agrees with a freshly constructed model on every detection
field — empty windows, zero trigger timestamps, zero rates (and for the
workout model also zero distance, zero strokes, no position and no start
time) — while configuration (`strokeRateMethod`, `motionPermission`) and the
workout model's announcement timers are preserved rather than restored. -/
theorem c4_reset_idempotent :
    (∀ s : SensorModelState,
      SensorModel.reset (SensorModel.reset s) = SensorModel.reset s ∧
      (SensorModel.reset s).accelerationHistory = [] ∧
      (SensorModel.reset s).lastStrokeDetection = 0 ∧
      (SensorModel.reset s).currentStrokeRate = 0 ∧
      (SensorModel.reset s).gpsStrokeRate = 0 ∧
      (SensorModel.reset s).speedPeaks = [] ∧
      (SensorModel.reset s).lastSpeedPeak = 0) ∧
    (∀ w : WorkoutModelState,
      WorkoutModel.reset (WorkoutModel.reset w) = WorkoutModel.reset w ∧
      (WorkoutModel.reset w).totalDistance = 0 ∧
      (WorkoutModel.reset w).strokeCount = 0 ∧
      (WorkoutModel.reset w).speedHistory = [] ∧
      (WorkoutModel.reset w).lastPosition = none ∧
      (WorkoutModel.reset w).startTime = none ∧
      (WorkoutModel.reset w).gpsStrokeRate = 0 ∧
      (WorkoutModel.reset w).speedPeaks = [] ∧
      (WorkoutModel.reset w).lastSpeedPeak = 0) := by
  constructor
  · intro s
    simp [SensorModel.reset]
  · intro w
    constructor
    · cases hrun : w.isRunning <;> cases hw : w.watchId <;>
        simp [WorkoutModel.reset, WorkoutModel.stop, hrun, hw]
    · cases hrun : w.isRunning <;> cases hw : w.watchId <;>
        simp [WorkoutModel.reset, WorkoutModel.stop, hrun, hw]

/- ===========================================================================
 * Claim C2: the Armed state and window eviction
 * =========================================================================== -/

/-- Unfolding one observation at the end of an observation stream. -/
theorem runAccel_append_singleton (samples : List (ℚ × ℤ)) (p : ℚ × ℤ) :
    SensorModel.runAccel (samples ++ [p]) =
      SensorModel.addAcceleration (SensorModel.runAccel samples) p.1 p.2 := by
  simp [SensorModel.runAccel, List.foldl_append]

/-- C2, counterexample.  After twenty observations with non-decreasing
timestamps 0..1900 ms the detector is Armed (the window holds 20 samples),
but one further observation at 20000 ms — no reset in between — evicts the
whole window: the next evaluation sees a single sample and is back in the
Accumulating state. -/
theorem c2_armed_state_counterexample :
    MotionStrokeDetection.hasEnoughData
      (SensorModel.runAccel samples20).accelerationHistory = true ∧
    (SensorModel.runAccel samples20).accelerationHistory.length = 20 ∧
    MotionStrokeDetection.hasEnoughData
      (SensorModel.runAccel (samples20 ++ [(1, 20000)])).accelerationHistory = false ∧
    (SensorModel.runAccel (samples20 ++ [(1, 20000)])).accelerationHistory.length = 1 := by
  decide

/-- C2, amended.  For any observation stream with non-decreasing timestamps,
the acceleration window after the last observation consists of exactly those
observed samples whose timestamps lie strictly within 10 s of the newest
timestamp.  Hence the detector is Armed after an observation iff at least 20
such samples remain, and it drops back to Accumulating without any reset
whenever the 10-second eviction leaves fewer than 20 (for instance after a
gap longer than 10 s), while it stays Armed as long as eviction retains 20. -/
theorem c2_window_characterization :
    ∀ (samples : List (ℚ × ℤ)) (p : ℚ × ℤ),
    List.Chain' (fun a b => a.2 ≤ b.2) (samples ++ [p]) →
    (SensorModel.runAccel (samples ++ [p])).accelerationHistory =
      ((samples ++ [p]).map (fun q => (⟨q.1, q.2⟩ : AccelSample))).filter
        (fun a => decide (p.2 - 10000 < a.timestamp)) := by
  intro samples
  induction samples using List.reverseRecOn with
  | nil =>
    intro p _
    simp [SensorModel.runAccel, SensorModel.addAcceleration, SensorModel.init]
  | append_singleton ts q IH =>
    intro p hc
    have hqp : q.2 ≤ p.2 := by
      have h1 := List.chain'_append.mp hc
      exact h1.2.2 q (by simp) p (by simp)
    have hts : List.Chain' (fun a b : ℚ × ℤ => a.2 ≤ b.2) (ts ++ [q]) :=
      (List.chain'_append.mp hc).1
    rw [runAccel_append_singleton (ts ++ [q]) p]
    have hhist :
        (SensorModel.addAcceleration (SensorModel.runAccel (ts ++ [q])) p.1
            p.2).accelerationHistory =
          ((SensorModel.runAccel (ts ++ [q])).accelerationHistory ++
              [(⟨p.1, p.2⟩ : AccelSample)]).filter
            (fun a => decide (p.2 - 10000 < a.timestamp)) := rfl
    rw [hhist, IH q hts, List.filter_append, List.filter_filter]
    have hcong :
        ((ts ++ [q]).map (fun z => (⟨z.1, z.2⟩ : AccelSample))).filter
            (fun a => decide (p.2 - 10000 < a.timestamp) &&
              decide (q.2 - 10000 < a.timestamp)) =
          ((ts ++ [q]).map (fun z => (⟨z.1, z.2⟩ : AccelSample))).filter
            (fun a => decide (p.2 - 10000 < a.timestamp)) := by
      apply List.filter_congr
      intro a _
      by_cases hpa : p.2 - 10000 < a.timestamp
      · have hqa : q.2 - 10000 < a.timestamp := by omega
        simp [hpa, hqa]
      · simp [hpa]
    rw [hcong]
    have hsingle :
        ([(⟨p.1, p.2⟩ : AccelSample)]).filter
            (fun a => decide (p.2 - 10000 < a.timestamp)) =
          [(⟨p.1, p.2⟩ : AccelSample)] := by
      simp
    rw [hsingle, List.append_assoc, List.map_append, List.filter_append]
    have hp2 : decide (p.2 - 10000 < p.2) = true := decide_eq_true (by omega)
    cases hf : decide (p.2 - 10000 < q.2) <;>
      simp [List.filter, hf, hp2]

/-- C2, witness for the amended theorem: a single observation at timestamp 0
retains exactly that sample. -/
theorem c2_window_characterization_witness :
    (SensorModel.runAccel (([] : List (ℚ × ℤ)) ++ [((1 : ℚ), (0 : ℤ))])).accelerationHistory =
      ((([] : List (ℚ × ℤ)) ++ [((1 : ℚ), (0 : ℤ))]).map
          (fun z => (⟨z.1, z.2⟩ : AccelSample))).filter
        (fun a => decide (((1 : ℚ), (0 : ℤ)).2 - 10000 < a.timestamp)) :=
  c2_window_characterization [] (1, 0) (by simp)

/- ===========================================================================
 * Claim C5: NaN handling
 * =========================================================================== -/

/-- C5, counterexample.  A NaN magnitude sample is not ignored: it is stored
in the window and poisons the baseline.  With the NaN sample present in the
window, a spike of magnitude 100 produces no detection (every comparison
against the NaN baseline is false); with the NaN sample absent the identical
call fires.  So NaN samples do enter (and alter) the rate computation. -/
theorem c5_nan_not_ignored_counterexample :
    JSModel.detectStroke historyWithNaN (.num 100) 2000 0 = none ∧
    JSModel.detectStroke historyWithoutNaN (.num 100) 2000 0 =
      some ⟨.num 6, 2000, 1⟩ := by
  constructor
  · norm_num [historyWithNaN, onesJ19, JSModel.detectStroke, JSModel.calculateAverage,
      lastN, JSNum.jadd, JSNum.jdiv, JSNum.jgt, JSNum.jlt]
  · norm_num [historyWithoutNaN, onesJ19, JSModel.detectStroke, JSModel.calculateAverage,
      JSModel.calculateStrokeRate, lastN, JSNum.jadd, JSNum.jdiv, JSNum.jgt, JSNum.jlt,
      JSNum.jle, JSNum.jmul, JSNum.jmin, JSNum.jroundJ]

/-- The motion rate computed on a detection is always a finite number: the
stroke count is an integer and the window length 10 s is a nonzero
constant. -/
theorem JSModel.calculateStrokeRate_num (c : ℕ) :
    ∃ q : ℚ, JSModel.calculateStrokeRate c
      (JSNum.jdiv (JSNum.num 10000) (JSNum.num 1000)) (JSNum.num 40) = JSNum.num q := by
  refine ⟨min (((⌊(c : ℚ) / 10 * 60 + 1 / 2⌋ : ℤ) : ℚ)) 40, ?_⟩
  norm_num [JSModel.calculateStrokeRate, JSNum.jdiv, JSNum.jle, JSNum.jmul,
    JSNum.jroundJ, JSNum.jmin]

/-- Any detection produced by the JavaScript-number motion detector carries a
finite (non-NaN) stroke rate. -/
theorem JSModel.detectStroke_strokeRate_num
    (h : List JSModel.AccelSample) (m : JSNum) (t last : ℤ) (r : JSModel.StrokeResult)
    (hsome : JSModel.detectStroke h m t last = some r) :
    ∃ q : ℚ, r.strokeRate = JSNum.num q := by
  simp only [JSModel.detectStroke] at hsome
  split at hsome
  · cases hsome
  · split at hsome
    · cases hsome
      exact JSModel.calculateStrokeRate_num _
    · cases hsome

/-- One motion event preserves finiteness of the stored current rate. -/
theorem JSModel.handleAccelerationData_rate_num
    (s : JSModel.MotionState) (m : JSNum) (t : ℤ)
    (hq : ∃ q : ℚ, s.currentStrokeRate = JSNum.num q) :
    ∃ q : ℚ, (JSModel.handleAccelerationData s m t).currentStrokeRate = JSNum.num q := by
  simp only [JSModel.handleAccelerationData]
  cases hdet : JSModel.detectStroke
      ((s.accelerationHistory ++ [(⟨m, t⟩ : JSModel.AccelSample)]).filter
        (fun a => decide (t - 10000 < a.timestamp))) m t s.lastStrokeDetection with
  | none => exact hq
  | some r => exact JSModel.detectStroke_strokeRate_num _ _ _ _ r hdet

/-- C5, amended.  NaN samples are stored, not dropped (see the
counterexample), but no reported rate is ever NaN: along any input stream —
including streams containing NaN magnitudes — the motion pipeline's current
rate is always a finite number, and the GPS rate computed from any peaks
list is never NaN. -/
theorem c5_no_nan_rate :
    (∀ events : List (JSNum × ℤ),
      ∃ q : ℚ, (JSModel.runMotion events).currentStrokeRate = JSNum.num q) ∧
    (∀ peaks : List SpeedSample, JSModel.calculateGPSStrokeRate peaks ≠ JSNum.nan) := by
  constructor
  · intro events
    suffices hgen : ∀ (l : List (JSNum × ℤ)) (s : JSModel.MotionState),
        (∃ q : ℚ, s.currentStrokeRate = JSNum.num q) →
        ∃ q : ℚ, (l.foldl
            (fun s e => JSModel.handleAccelerationData s e.1 e.2) s).currentStrokeRate =
          JSNum.num q by
      exact hgen events JSModel.initMotion ⟨0, rfl⟩
    intro l
    induction l with
    | nil => intro s hq; exact hq
    | cons e l ih =>
      intro s hq
      exact ih _ (JSModel.handleAccelerationData_rate_num s e.1 e.2 hq)
  · intro peaks
    unfold JSModel.calculateGPSStrokeRate
    split_ifs with h1
    · simp
    · have hc : (0 : ℚ) < ((peaks.length - 1 : ℕ) : ℚ) := by
        have : 0 < peaks.length - 1 := by omega
        exact_mod_cast this
      by_cases hz :
          ((((peaks.getLastD default).timestamp - (peaks.headD default).timestamp : ℤ) : ℚ) /
            1000) = 0
      · simp only [hz, JSNum.jdiv, if_pos rfl, hc.ne', if_false, hc, if_true]
        norm_num [JSNum.jmul, JSNum.jroundJ, JSNum.jmin]
        simp
      · simp only [JSNum.jdiv, hz, if_neg hz]
        norm_num [JSNum.jmul, JSNum.jroundJ, JSNum.jmin]
        simp

/-- C5, witness (for the amended theorem's computation on a concrete NaN
stream): after a stream consisting of a single NaN magnitude event the
current rate is still a finite number. -/
theorem c5_no_nan_rate_witness :
    ∃ q : ℚ, (JSModel.runMotion [(JSNum.nan, 0)]).currentStrokeRate = JSNum.num q :=
  c5_no_nan_rate.1 [(JSNum.nan, 0)]

/- ===========================================================================
 * Claim C6: the motion firing condition
 * =========================================================================== -/

/-- C6.  With at least `BASELINE_SAMPLE_SIZE` samples stored, the motion
detector fires iff the magnitude strictly exceeds the mean of the last 20
samples plus the margin 4 AND strictly more than 800 ms have elapsed since
the last trigger; a magnitude exactly at the threshold never fires, and an
observation 500 ms after the previous trigger never fires (so two spikes
500 ms apart yield one event). -/
theorem c6_motion_firing_condition :
    (∀ (h : List AccelSample) (mag : ℚ) (t last : ℤ),
      BASELINE_SAMPLE_SIZE ≤ h.length →
      ((MotionStrokeDetection.detectStroke h mag t last).isSome = true ↔
        (calculateAverage ((lastN BASELINE_SAMPLE_SIZE h).map (·.magnitude)) +
            ACCELERATION_THRESHOLD < mag ∧
          MIN_STROKE_INTERVAL < t - last))) ∧
    (∀ (h : List AccelSample) (t last : ℤ),
      MotionStrokeDetection.detectStroke h
        (calculateAverage ((lastN BASELINE_SAMPLE_SIZE h).map (·.magnitude)) +
          ACCELERATION_THRESHOLD) t last = none) ∧
    (∀ (h : List AccelSample) (mag : ℚ) (t : ℤ),
      MotionStrokeDetection.detectStroke h mag (t + 500) t = none) := by
  refine ⟨?_, ?_, ?_⟩
  · intro h mag t last hlen
    simp only [MotionStrokeDetection.detectStroke]
    rw [if_neg (by omega)]
    split_ifs with hc
    · simp [hc]
    · simp [hc]
  · intro h t last
    simp only [MotionStrokeDetection.detectStroke]
    split_ifs with h1 h2
    · rfl
    · exact absurd h2.1 (lt_irrefl _)
    · rfl
  · intro h mag t
    simp only [MotionStrokeDetection.detectStroke]
    split_ifs with h1 h2
    · rfl
    · exfalso
      have := h2.2
      simp [MIN_STROKE_INTERVAL] at this
    · rfl

/-- C6, witness: on a 20-sample window of constant magnitude 1, a spike of
magnitude 100 at 2000 ms (last trigger at 0) fires. -/
theorem c6_motion_firing_condition_witness :
    (MotionStrokeDetection.detectStroke
      [(⟨1, 0⟩ : AccelSample), ⟨1, 100⟩, ⟨1, 200⟩, ⟨1, 300⟩, ⟨1, 400⟩, ⟨1, 500⟩,
       ⟨1, 600⟩, ⟨1, 700⟩, ⟨1, 800⟩, ⟨1, 900⟩, ⟨1, 1000⟩, ⟨1, 1100⟩, ⟨1, 1200⟩,
       ⟨1, 1300⟩, ⟨1, 1400⟩, ⟨1, 1500⟩, ⟨1, 1600⟩, ⟨1, 1700⟩, ⟨1, 1800⟩, ⟨1, 1900⟩]
      100 2000 0).isSome = true :=
  (c6_motion_firing_condition.1 _ 100 2000 0 (by norm_num [BASELINE_SAMPLE_SIZE])).mpr
    (by norm_num [calculateAverage, lastN, BASELINE_SAMPLE_SIZE,
      ACCELERATION_THRESHOLD, MIN_STROKE_INTERVAL])

/- ===========================================================================
 * Claim C7: constant magnitude never fires
 * =========================================================================== -/

/-- The mean of a nonempty list all of whose entries equal `m` is `m`. -/
theorem calculateAverage_const (values : List ℚ) (m : ℚ) (hne : values.length ≠ 0)
    (hconst : ∀ v ∈ values, v = m) : calculateAverage values = m := by
  rw [calculateAverage, if_neg hne, List.sum_eq_card_nsmul values m hconst, nsmul_eq_mul]
  exact mul_div_cancel_left₀ m (Nat.cast_ne_zero.mpr hne)

/-- `lastN` keeps only elements of the original list. -/
theorem lastN_subset {l : List α} {a : α} (ha : a ∈ lastN n l) : a ∈ l :=
  (List.drop_sublist _ _).subset ha

/-- `lastN n` of a list with at least `n` elements has exactly `n`
elements. -/
theorem lastN_length {l : List α} (h : n ≤ l.length) : (lastN n l).length = n := by
  simp [lastN]
  omega

/-- On a history of constant magnitude the service detector never fires: the
baseline equals the magnitude and the additive margin puts the threshold
strictly above it. -/
theorem detectStroke_constant_none (h : List AccelSample) (m : ℚ) (t last : ℤ)
    (hconst : ∀ a ∈ h, a.magnitude = m) :
    MotionStrokeDetection.detectStroke h m t last = none := by
  by_cases hlen : h.length < BASELINE_SAMPLE_SIZE
  · simp [MotionStrokeDetection.detectStroke, hlen]
  · have h20 : (lastN BASELINE_SAMPLE_SIZE h).length = BASELINE_SAMPLE_SIZE :=
      lastN_length (by omega)
    have havg :
        calculateAverage ((lastN BASELINE_SAMPLE_SIZE h).map (·.magnitude)) = m := by
      apply calculateAverage_const
      · rw [List.length_map, h20]
        simp [BASELINE_SAMPLE_SIZE]
      · intro v hv
        obtain ⟨a, ha, rfl⟩ := List.mem_map.mp hv
        exact hconst a (lastN_subset ha)
    simp only [MotionStrokeDetection.detectStroke]
    rw [if_neg hlen, if_neg]
    intro hcond
    rw [havg] at hcond
    have := hcond.1
    rw [ACCELERATION_THRESHOLD] at this
    linarith

/-- On a history of constant magnitude the in-class detector
(`SensorsModel.detectStroke`) is the identity. -/
theorem SensorsModel.detectStroke_constant_id (s : SensorsModelState) (m : ℚ) (t : ℤ)
    (hconst : ∀ a ∈ s.accelerationHistory, a.magnitude = m) :
    SensorsModel.detectStroke s m t = s := by
  by_cases hlen : s.accelerationHistory.length < 20
  · simp [SensorsModel.detectStroke, hlen]
  · have h20 : (lastN 20 s.accelerationHistory).length = 20 := lastN_length (by omega)
    have hsum :
        ((lastN 20 s.accelerationHistory).map (·.magnitude)).sum =
          ((lastN 20 s.accelerationHistory).map (·.magnitude)).length • m := by
      apply List.sum_eq_card_nsmul
      intro v hv
      obtain ⟨a, ha, rfl⟩ := List.mem_map.mp hv
      exact hconst a (lastN_subset ha)
    have havg :
        ((lastN 20 s.accelerationHistory).map (·.magnitude)).sum /
            ((lastN 20 s.accelerationHistory).length : ℚ) = m := by
      rw [hsum, List.length_map, nsmul_eq_mul]
      exact mul_div_cancel_left₀ m (by rw [h20]; norm_num)
    simp only [SensorsModel.detectStroke]
    rw [if_neg hlen, if_neg]
    intro hcond
    rw [havg] at hcond
    have := hcond.1
    linarith

/-- One constant-magnitude motion event preserves the constant-magnitude
window and leaves the stroke count and rate unchanged. -/
theorem SensorsModel.handleDeviceMotion_const (s : SensorsModelState) (m : ℚ) (t : ℤ)
    (hconst : ∀ a ∈ s.accelerationHistory, a.magnitude = m) :
    (∀ a ∈ (SensorsModel.handleDeviceMotion s m t).accelerationHistory,
        a.magnitude = m) ∧
    (SensorsModel.handleDeviceMotion s m t).strokeCount = s.strokeCount ∧
    (SensorsModel.handleDeviceMotion s m t).currentStrokeRate = s.currentStrokeRate := by
  have hconst1 :
      ∀ a ∈ ((s.accelerationHistory ++ [(⟨m, t⟩ : AccelSample)]).filter
          (fun a => decide (t - 10000 < a.timestamp))),
        a.magnitude = m := by
    intro a ha
    have ha2 := (List.mem_filter.mp ha).1
    rcases List.mem_append.mp ha2 with h1 | h1
    · exact hconst a h1
    · simp at h1
      rw [h1]
  unfold SensorsModel.handleDeviceMotion
  rw [SensorsModel.detectStroke_constant_id _ m t hconst1]
  exact ⟨hconst1, rfl, rfl⟩

/-- C7.  A detector fed only samples of one constant magnitude never fires:
at service level `detectStroke` returns `null` on any constant-magnitude
history, and along any constant-magnitude event stream with non-decreasing
timestamps the `SensorsModel` pipeline keeps a stroke count and motion rate
of 0. -/
theorem c7_constant_magnitude_never_fires :
    (∀ (h : List AccelSample) (m : ℚ) (t last : ℤ),
      (∀ a ∈ h, a.magnitude = m) →
      MotionStrokeDetection.detectStroke h m t last = none) ∧
    (∀ (m : ℚ) (ts : List ℤ), ts.Chain' (· ≤ ·) →
      (SensorsModel.run (ts.map (fun t => (m, t)))).strokeCount = 0 ∧
      (SensorsModel.run (ts.map (fun t => (m, t)))).currentStrokeRate = 0) := by
  constructor
  · exact fun h m t last hconst => detectStroke_constant_none h m t last hconst
  · intro m ts _
    suffices hgen :
        ∀ (l : List ℤ) (s : SensorsModelState),
          (∀ a ∈ s.accelerationHistory, a.magnitude = m) →
          ((l.map (fun t => (m, t))).foldl
              (fun s e => SensorsModel.handleDeviceMotion s e.1 e.2) s).strokeCount =
              s.strokeCount ∧
          ((l.map (fun t => (m, t))).foldl
              (fun s e => SensorsModel.handleDeviceMotion s e.1 e.2) s).currentStrokeRate =
              s.currentStrokeRate by
      have h := hgen ts SensorsModel.init (by simp [SensorsModel.init])
      exact ⟨h.1, h.2⟩
    intro l
    induction l with
    | nil => intro s _; exact ⟨rfl, rfl⟩
    | cons t l ih =>
      intro s hs
      have hstep := SensorsModel.handleDeviceMotion_const s m t hs
      have hrec := ih (SensorsModel.handleDeviceMotion s m t) hstep.1
      refine ⟨?_, ?_⟩
      · simpa [hstep.2.1] using hrec.1
      · simpa [hstep.2.2] using hrec.2

/-- C7, witness: two constant-magnitude events leave the stroke count at 0. -/
theorem c7_constant_magnitude_never_fires_witness :
    (SensorsModel.run ([(0 : ℤ), 100].map (fun t => ((5 : ℚ), t)))).strokeCount = 0 :=
  (c7_constant_magnitude_never_fires.2 5 [0, 100]
    (by norm_num [List.chain'_cons, List.chain'_singleton])).1

/- ===========================================================================
 * Claim C8: the GPS rate formula
 * =========================================================================== -/

/-- C8.  With at least two retained peaks and a strictly positive time span,
the GPS rate is `round((peaksCount - 1) / (timeSpanMs / 1000) * 60)` capped
at 40; with fewer than two peaks it is 0; two peaks 2000 ms apart give
30 SPM; and the computed rate never exceeds 40. -/
theorem c8_gps_rate_formula :
    (∀ peaks : List SpeedSample, 2 ≤ peaks.length →
      0 < (peaks.getLastD default).timestamp - (peaks.headD default).timestamp →
      GPSStrokeDetection.calculateStrokeRateFromPeaks peaks =
        min (jround (((peaks.length - 1 : ℕ) : ℚ) /
          ((((peaks.getLastD default).timestamp - (peaks.headD default).timestamp : ℤ) : ℚ) /
            1000) * 60)) 40) ∧
    (∀ peaks : List SpeedSample, peaks.length < 2 →
      GPSStrokeDetection.calculateStrokeRateFromPeaks peaks = 0) ∧
    (GPSStrokeDetection.calculateStrokeRateFromPeaks
      [(⟨1, 0⟩ : SpeedSample), ⟨2, 2000⟩] = 30) ∧
    (∀ peaks : List SpeedSample,
      GPSStrokeDetection.calculateStrokeRateFromPeaks peaks ≤ 40) := by
  refine ⟨?_, ?_, ?_, ?_⟩
  · intro peaks hlen hspan
    have hpos : (0 : ℚ) <
        (((peaks.getLastD default).timestamp - (peaks.headD default).timestamp : ℤ) : ℚ) /
          1000 := by
      apply div_pos
      · exact_mod_cast hspan
      · norm_num
    simp only [GPSStrokeDetection.calculateStrokeRateFromPeaks, MIN_PEAKS_FOR_RATE,
      MAX_GPS_STROKE_RATE, calculateStrokeRate]
    rw [if_neg (by omega), if_neg (not_le.mpr hpos)]
  · intro peaks hlen
    simp only [GPSStrokeDetection.calculateStrokeRateFromPeaks, MIN_PEAKS_FOR_RATE]
    rw [if_pos hlen]
  · norm_num [GPSStrokeDetection.calculateStrokeRateFromPeaks, calculateStrokeRate,
      MIN_PEAKS_FOR_RATE, MAX_GPS_STROKE_RATE, jround]
  · intro peaks
    simp only [GPSStrokeDetection.calculateStrokeRateFromPeaks, MIN_PEAKS_FOR_RATE,
      MAX_GPS_STROKE_RATE, calculateStrokeRate]
    split_ifs
    · norm_num
    · norm_num
    · exact min_le_right _ _

/-- C8, witness: the formula instantiated at two peaks 2000 ms apart gives
`round(1 / 2 * 60) = 30`. -/
theorem c8_gps_rate_formula_witness :
    GPSStrokeDetection.calculateStrokeRateFromPeaks
      [(⟨1, 0⟩ : SpeedSample), ⟨2, 2000⟩] = 30 := by
  rw [c8_gps_rate_formula.1 [(⟨1, 0⟩ : SpeedSample), ⟨2, 2000⟩] (by norm_num)
    (by norm_num [List.getLastD, List.headD])]
  norm_num [List.getLastD, List.headD, jround]

/- ===========================================================================
 * Claim C9: sliding-window retention invariant
 * =========================================================================== -/

/-- C9.  After any append, every retained sample is strictly newer than the
appended timestamp minus the retention horizon: 10 s for the acceleration
window, 30 s for the speed window, 30 s for the peaks window.  This holds for
an append from any prior state, hence after each append of any sequence. -/
theorem c9_window_retention :
    (∀ (s : SensorModelState) (m : ℚ) (t : ℤ),
      ∀ a ∈ (SensorModel.addAcceleration s m t).accelerationHistory,
        t - 10000 < a.timestamp) ∧
    (∀ (s : SensorModelState) (v : ℚ) (t : ℤ),
      ∀ p ∈ (SensorModel.addSpeedPeak s v t).speedPeaks,
        t - 30000 < p.timestamp) ∧
    (∀ (speedHistory : List SpeedSample) (v : ℚ) (t : ℤ),
      ∀ x ∈ WorkoutModel.addSpeed speedHistory v t,
        t - 30000 < x.timestamp) := by
  refine ⟨?_, ?_, ?_⟩
  · intro s m t a ha
    simpa using (List.mem_filter.mp ha).2
  · intro s v t p hp
    simpa using (List.mem_filter.mp hp).2
  · intro speedHistory v t x hx
    simpa using (List.mem_filter.mp hx).2

/-- C9, witness: the sample just appended to a fresh acceleration window at
timestamp 0 is retained and within the horizon. -/
theorem c9_window_retention_witness :
    (0 : ℤ) - 10000 < ((⟨1, 0⟩ : AccelSample)).timestamp :=
  c9_window_retention.1 SensorModel.init 1 0 ⟨1, 0⟩
    (by simp [SensorModel.addAcceleration, SensorModel.init])

/- ===========================================================================
 * Claim C10: GPS noise-filter boundary
 * =========================================================================== -/

/-- C10.  `isRealMovement(distance, speed, 3, 0.5)` is true exactly when the
distance strictly exceeds 3 m and the speed is at least 0.5 m/s: a
displacement of exactly 3 m is rejected, a speed of exactly 0.5 m/s is
accepted. -/
theorem c10_isRealMovement_boundary :
    (∀ distance speed : ℚ,
      isRealMovement distance speed 3 (1 / 2) = true ↔
        (3 < distance ∧ 1 / 2 ≤ speed)) ∧
    (∀ speed : ℚ, isRealMovement 3 speed 3 (1 / 2) = false) ∧
    (∀ distance : ℚ, 3 < distance →
      isRealMovement distance (1 / 2) 3 (1 / 2) = true) := by
  refine ⟨?_, ?_, ?_⟩
  · intro distance speed
    simp [isRealMovement]
  · intro speed
    simp [isRealMovement]
  · intro distance hd
    simp [isRealMovement, hd]

/-- C10, witness: a 4 m displacement at exactly 0.5 m/s counts as real
movement. -/
theorem c10_isRealMovement_boundary_witness :
    isRealMovement 4 (1 / 2) 3 (1 / 2) = true :=
  c10_isRealMovement_boundary.2.2 4 (by norm_num)
